import Mathlib

/-!
Shallow embedding of the `pulumi_pve` generated SDK
(`sdk/python/pulumi_pve/provider.py` and `sdk/python/pulumi_pve/storage/file.py`),
together with the reconciliation contract the repository's spec describes for
the surrounding provider implementation.

The two Python files are mechanical bindings: each resource class has an
`_internal_init` that validates options and required properties, builds a
property bag, and forwards it to the orchestration host's registration call
(`super().__init__(type, name, props, opts)`).  We model that registration
call as the returned value of the init function; a raised Python exception is
modelled as `Except.error`.
-/

/-- Truthiness of an optional Python string, as evaluated by `not opts.urn`:
`None` and the empty string are falsy, every other string is truthy. -/
def strTruthy : Option String → Bool
  | none => false
  | some s => !(s == "")

/-- The slice of `pulumi.ResourceOptions` the generated code reads or writes:
`id`, `urn`, and `additional_secret_outputs`.  All other option fields are
irrelevant to the embedded code paths. -/
structure ResourceOptions where
  id : Option String := none
  urn : Option String := none
  additionalSecretOutputs : List String := []
deriving Repr, DecidableEq

/-- `pulumi.ResourceOptions.merge`: scalar fields of the second argument win
when present, list fields are concatenated. -/
def ResourceOptions.mergeOpts (a b : ResourceOptions) : ResourceOptions where
  id := match b.id with
    | some x => some x
    | none => a.id
  urn := match b.urn with
    | some x => some x
    | none => a.urn
  additionalSecretOutputs := a.additionalSecretOutputs ++ b.additionalSecretOutputs

/-- A Python value supplied as the `opts` argument: either a genuine
`ResourceOptions` instance or some other object (the generated code guards
against the latter with an `isinstance` check). -/
inductive OptsArg where
  | ro (o : ResourceOptions)
  | notResourceOptions
deriving Repr, DecidableEq

/-- `pulumi.ResourceOptions.merge(_utilities.get_resource_opts_defaults(), opts)`:
the defaults carry no `id`, `urn` or secret-output names, so merging them with
the caller's options preserves those fields; a `None` caller argument yields
the defaults; a non-`ResourceOptions` object passes through to the
`isinstance` guard. -/
def mergeDefaults : Option OptsArg → OptsArg
  | none => .ro {}
  | some (.ro o) => .ro (ResourceOptions.mergeOpts {} o)
  | some .notResourceOptions => .notResourceOptions

/-- A value stored in a property map forwarded to the host: either the plain
string, or a secret-wrapped value as produced by `pulumi.Output.secret`. -/
inductive PropValue where
  | plain (s : String)
  | secret (s : String)
deriving Repr, DecidableEq

/-- The exceptions `_internal_init` can raise before reaching the host
registration call. -/
inductive InitError where
  | typeErrorNotResourceOptions
  | typeErrorPropsWithId
  | missingRequiredProperty (field : String)
deriving Repr, DecidableEq

/-- The `__props__` bag of a `Provider` (`ProviderArgs.__dict__` as populated
by `_internal_init`): five named slots, each absent or holding a value. -/
structure ProviderProps where
  pve_token : Option PropValue
  pve_url : Option PropValue
  pve_user : Option PropValue
  ssh_pass : Option PropValue
  ssh_user : Option PropValue
deriving Repr, DecidableEq

/-- The host registration call issued by `Provider._internal_init` via
`super().__init__('pve', resource_name, __props__, opts)`. -/
structure ProviderRegisterCall where
  typ : String
  name : String
  props : Option ProviderProps
  opts : ResourceOptions
deriving Repr, DecidableEq

/-- Lines 130-149 of `provider.py`: the branch that validates `__props__`
and the required properties and builds the fresh property bag on the create
path (`opts.id is None`); on the lookup path the supplied bag is forwarded
unchanged.  `pve_token` and `ssh_pass` are wrapped with
`pulumi.Output.secret` when present. -/
def providerBuildProps (o : ResourceOptions)
    (pve_token pve_url pve_user ssh_pass ssh_user : Option String)
    (props0 : Option ProviderProps) : Except InitError (Option ProviderProps) :=
  if o.id.isNone then
    match props0 with
    | some _ => .error .typeErrorPropsWithId
    | none =>
      if pve_token.isNone && !strTruthy o.urn then
        .error (.missingRequiredProperty "pve_token")
      else if pve_url.isNone && !strTruthy o.urn then
        .error (.missingRequiredProperty "pve_url")
      else if pve_user.isNone && !strTruthy o.urn then
        .error (.missingRequiredProperty "pve_user")
      else if ssh_pass.isNone && !strTruthy o.urn then
        .error (.missingRequiredProperty "ssh_pass")
      else if ssh_user.isNone && !strTruthy o.urn then
        .error (.missingRequiredProperty "ssh_user")
      else
        .ok (some
          { pve_token := pve_token.map PropValue.secret
            pve_url := pve_url.map PropValue.plain
            pve_user := pve_user.map PropValue.plain
            ssh_pass := ssh_pass.map PropValue.secret
            ssh_user := ssh_user.map PropValue.plain })
  else .ok props0

/-- `Provider._internal_init` (provider.py lines 118-156): merge option
defaults, check the options are a `ResourceOptions` instance, build or
forward the property bag, attach the secret-output names
`["pveToken", "sshPass"]`, and issue the registration call. -/
def Provider.internal_init (resource_name : String) (opts : Option OptsArg)
    (pve_token pve_url pve_user ssh_pass ssh_user : Option String)
    (props0 : Option ProviderProps) : Except InitError ProviderRegisterCall :=
  match mergeDefaults opts with
  | .notResourceOptions => .error .typeErrorNotResourceOptions
  | .ro o =>
    (providerBuildProps o pve_token pve_url pve_user ssh_pass ssh_user props0).map
      (fun props =>
        { typ := "pve"
          name := resource_name
          props := props
          opts := ResourceOptions.mergeOpts o
            { additionalSecretOutputs := ["pveToken", "sshPass"] } })

/-- The `source_raw` payload of a `File` (`FileSourceRawArgs`): a file name
and raw data, per the spec's data model `source_raw{filename, data}`. -/
structure FileSourceRaw where
  fileName : String
  data : String
deriving Repr, DecidableEq

/-- The `__props__` bag of a `File` (`FileArgs.__dict__` as populated by
`_internal_init`): three named slots.  No field of `File` is secret-wrapped. -/
structure FileProps where
  content_type : Option String
  datastore_id : Option String
  source_raw : Option FileSourceRaw
deriving Repr, DecidableEq

/-- The host registration call issued by `File._internal_init` via
`super().__init__('pve:storage:File', resource_name, __props__, opts)`. -/
structure FileRegisterCall where
  typ : String
  name : String
  props : Option FileProps
  opts : ResourceOptions
deriving Repr, DecidableEq

/-- Lines 121-134 of `storage/file.py`: validate `__props__` and the required
properties and build the fresh property bag on the create path; forward the
supplied bag unchanged on the lookup path. -/
def fileBuildProps (o : ResourceOptions)
    (content_type datastore_id : Option String) (source_raw : Option FileSourceRaw)
    (props0 : Option FileProps) : Except InitError (Option FileProps) :=
  if o.id.isNone then
    match props0 with
    | some _ => .error .typeErrorPropsWithId
    | none =>
      if content_type.isNone && !strTruthy o.urn then
        .error (.missingRequiredProperty "content_type")
      else if datastore_id.isNone && !strTruthy o.urn then
        .error (.missingRequiredProperty "datastore_id")
      else if source_raw.isNone && !strTruthy o.urn then
        .error (.missingRequiredProperty "source_raw")
      else
        .ok (some
          { content_type := content_type
            datastore_id := datastore_id
            source_raw := source_raw })
  else .ok props0

/-- `File._internal_init` (storage/file.py lines 111-139): merge option
defaults, check the options are a `ResourceOptions` instance, build or
forward the property bag, and issue the registration call.  Unlike the
provider, no secret-output options are attached. -/
def File.internal_init (resource_name : String) (opts : Option OptsArg)
    (content_type datastore_id : Option String) (source_raw : Option FileSourceRaw)
    (props0 : Option FileProps) : Except InitError FileRegisterCall :=
  match mergeDefaults opts with
  | .notResourceOptions => .error .typeErrorNotResourceOptions
  | .ro o =>
    (fileBuildProps o content_type datastore_id source_raw props0).map
      (fun props =>
        { typ := "pve:storage:File"
          name := resource_name
          props := props
          opts := o })

/-- `File.get` (storage/file.py lines 141-160): merge the given `id` into the
options, build a property bag whose three slots are all `None`, and construct
the `File` through `_internal_init` with that bag as `__props__`. -/
def File.getResource (resource_name : String) (id : String)
    (opts : Option ResourceOptions) : Except InitError FileRegisterCall :=
  let merged := ResourceOptions.mergeOpts
    (match opts with
      | none => {}
      | some o => o)
    { id := some id }
  File.internal_init resource_name (some (.ro merged)) none none none
    (some { content_type := none, datastore_id := none, source_raw := none })

/-- Modelled from the spec: the Reconciliation Adapter's action
classification (spec section 4.1).  The adapter itself lives in the provider
implementation, which is not part of the generated SDK under the repository's
source tree; this definition follows the spec's words: no existing Output
Model means Create; an immutable field (`source_raw`) differing means
Replace; only mutable fields differing means Update; all fields equal means
NoChange. -/
inductive ReconcileAction where
  | Create
  | Update
  | Replace
  | NoChange
deriving Repr, DecidableEq

/-- Modelled from the spec: the compared state of a `File` resource, desired
or observed (spec section 3: `{content_type, datastore_id, source_raw}`). -/
structure FileState where
  content_type : String
  datastore_id : String
  source_raw : FileSourceRaw
deriving Repr, DecidableEq

/-- Modelled from the spec: the Reconciliation Adapter's decision for the
`File` resource, with `source_raw` as the immutable field (spec sections 3
and 4.1). -/
def fileReconcile (desired : FileState) (observed : Option FileState) :
    ReconcileAction :=
  match observed with
  | none => .Create
  | some obs =>
    if desired.source_raw ≠ obs.source_raw then .Replace
    else if desired.content_type ≠ obs.content_type ∨
        desired.datastore_id ≠ obs.datastore_id then .Update
    else .NoChange

/-- The orchestration host's persisted Output Model store for `File`
resources, applied after one reconciliation pass: a failed init leaves the
store untouched, a successful one records the registration under the
resource's name. -/
def runFileRegistration (store : String → Option FileRegisterCall)
    (nm : String) (r : Except InitError FileRegisterCall) :
    String → Option FileRegisterCall :=
  match r with
  | .error _ => store
  | .ok call => fun n => if n = nm then some call else store n

/-- The orchestration host's persisted Output Model store for `Provider`
resources, applied the same way. -/
def runProviderRegistration (store : String → Option ProviderRegisterCall)
    (nm : String) (r : Except InitError ProviderRegisterCall) :
    String → Option ProviderRegisterCall :=
  match r with
  | .error _ => store
  | .ok call => fun n => if n = nm then some call else store n

/-- The property bag registered when the `Provider` create-path test input is
used; the expected payload of the registration call in `claim_C10_witness`. -/
def provTestCall : ProviderRegisterCall :=
  { typ := "pve"
    name := "p"
    props := some
      { pve_token := some (.secret "t")
        pve_url := some (.plain "u")
        pve_user := some (.plain "v")
        ssh_pass := some (.secret "w")
        ssh_user := some (.plain "s") }
    opts := { id := none, urn := none,
              additionalSecretOutputs := ["pveToken", "sshPass"] } }

/-- Merging the (empty) option defaults on the left leaves the caller's
options unchanged. -/
theorem mergeOpts_empty_left (o : ResourceOptions) :
    ResourceOptions.mergeOpts {} o = o := by
  obtain ⟨i, u, a⟩ := o
  cases i <;> cases u <;> simp [ResourceOptions.mergeOpts]

/-- C1: on the create path (`opts.id` is `None`, `opts.urn` unset), the
secret-marked fields `pve_token` and `ssh_pass` are secret-wrapped in the
property map forwarded to the host registration call, while `pve_url`,
`pve_user` and `ssh_user` are forwarded as plain values; no plaintext value
sits in the map under the secret fields. -/
theorem claim_C1 (nm t u v p s : String) :
    Provider.internal_init nm (some (.ro {})) (some t) (some u) (some v)
        (some p) (some s) none
      = .ok
        { typ := "pve"
          name := nm
          props := some
            { pve_token := some (.secret t)
              pve_url := some (.plain u)
              pve_user := some (.plain v)
              ssh_pass := some (.secret p)
              ssh_user := some (.plain s) }
          opts := { id := none, urn := none,
                    additionalSecretOutputs := ["pveToken", "sshPass"] } } := rfl

/-- C2: at create time (no `opts.id`, no `opts.urn`, no `__props__`), leaving
any one required field absent fails with a missing-required-property error
naming that field — five cases for `Provider`, three for `File` — and no
registration call is issued (the result is an error, not a call). -/
theorem claim_C2 (nm t u v p s ct ds : String) (sr : FileSourceRaw) :
    Provider.internal_init nm (some (.ro {})) none (some u) (some v) (some p) (some s) none
        = .error (.missingRequiredProperty "pve_token") ∧
    Provider.internal_init nm (some (.ro {})) (some t) none (some v) (some p) (some s) none
        = .error (.missingRequiredProperty "pve_url") ∧
    Provider.internal_init nm (some (.ro {})) (some t) (some u) none (some p) (some s) none
        = .error (.missingRequiredProperty "pve_user") ∧
    Provider.internal_init nm (some (.ro {})) (some t) (some u) (some v) none (some s) none
        = .error (.missingRequiredProperty "ssh_pass") ∧
    Provider.internal_init nm (some (.ro {})) (some t) (some u) (some v) (some p) none none
        = .error (.missingRequiredProperty "ssh_user") ∧
    File.internal_init nm (some (.ro {})) none (some ds) (some sr) none
        = .error (.missingRequiredProperty "content_type") ∧
    File.internal_init nm (some (.ro {})) (some ct) none (some sr) none
        = .error (.missingRequiredProperty "datastore_id") ∧
    File.internal_init nm (some (.ro {})) (some ct) (some ds) none none
        = .error (.missingRequiredProperty "source_raw") :=
  ⟨rfl, rfl, rfl, rfl, rfl, rfl, rfl, rfl⟩

/-- C3: `source_raw` is immutable for the `File` resource: whenever the
desired `source_raw` differs from the observed one, the reconciliation
decision is Replace and never Update. -/
theorem claim_C3 (d obs : FileState) (h : d.source_raw ≠ obs.source_raw) :
    fileReconcile d (some obs) = ReconcileAction.Replace ∧
    fileReconcile d (some obs) ≠ ReconcileAction.Update := by
  refine ⟨?_, ?_⟩ <;> simp [fileReconcile, h]

/-- Witness for C3 at the spec's own scenario: same file, `source_raw.data`
changed from `x` to `y` yields Replace. -/
theorem claim_C3_witness :
    fileReconcile
        { content_type := "snippets", datastore_id := "ceph-ha",
          source_raw := { fileName := "a.yaml", data := "x" } }
        (some
          { content_type := "snippets", datastore_id := "ceph-ha",
            source_raw := { fileName := "a.yaml", data := "y" } })
      = ReconcileAction.Replace ∧
    fileReconcile
        { content_type := "snippets", datastore_id := "ceph-ha",
          source_raw := { fileName := "a.yaml", data := "x" } }
        (some
          { content_type := "snippets", datastore_id := "ceph-ha",
            source_raw := { fileName := "a.yaml", data := "y" } })
      ≠ ReconcileAction.Update :=
  claim_C3 _ _ (by decide)

/-- C4: with no existing identity (`opts.id` is `None`) and all required
fields present, construction always takes the create path for both resource
kinds: a fresh property bag built from the desired inputs is registered with
the host, regardless of the particular field values. -/
theorem claim_C4 (nm t u v p s ct ds : String) (sr : FileSourceRaw) :
    Provider.internal_init nm (some (.ro {})) (some t) (some u) (some v)
        (some p) (some s) none
      = .ok
        { typ := "pve"
          name := nm
          props := some
            { pve_token := some (.secret t)
              pve_url := some (.plain u)
              pve_user := some (.plain v)
              ssh_pass := some (.secret p)
              ssh_user := some (.plain s) }
          opts := { id := none, urn := none,
                    additionalSecretOutputs := ["pveToken", "sshPass"] } } ∧
    File.internal_init nm (some (.ro {})) (some ct) (some ds) (some sr) none
      = .ok
        { typ := "pve:storage:File"
          name := nm
          props := some
            { content_type := some ct
              datastore_id := some ds
              source_raw := some sr }
          opts := { id := none, urn := none, additionalSecretOutputs := [] } } :=
  ⟨rfl, rfl⟩

/-- C5: when construction fails, the error is raised before the host
registration call, so applying the reconciliation pass to the persisted
store leaves the Output Model of every resource name unchanged. -/
theorem claim_C5 (fstore : String → Option FileRegisterCall)
    (pstore : String → Option ProviderRegisterCall)
    (nm n : String) (oa : Option OptsArg)
    (ct ds : Option String) (sr : Option FileSourceRaw) (fbag : Option FileProps)
    (t u v p s : Option String) (pbag : Option ProviderProps) (ef ep : InitError)
    (hf : File.internal_init nm oa ct ds sr fbag = .error ef)
    (hp : Provider.internal_init nm oa t u v p s pbag = .error ep) :
    runFileRegistration fstore nm (File.internal_init nm oa ct ds sr fbag) n
        = fstore n ∧
    runProviderRegistration pstore nm (Provider.internal_init nm oa t u v p s pbag) n
        = pstore n := by
  rw [hf, hp]
  exact ⟨rfl, rfl⟩

/-- Witness for C5: a `File` missing `content_type` and a `Provider` missing
`pve_token` both fail and leave an empty store empty. -/
theorem claim_C5_witness :
    runFileRegistration (fun _ => none) "f"
        (File.internal_init "f" (some (.ro {})) none (some "d")
          (some { fileName := "a", data := "x" }) none) "g" = none ∧
    runProviderRegistration (fun _ => none) "f"
        (Provider.internal_init "f" (some (.ro {})) none (some "u") (some "v")
          (some "p") (some "s") none) "g" = none :=
  claim_C5 (fun _ => none) (fun _ => none) "f" "g" (some (.ro {}))
    none (some "d") (some { fileName := "a", data := "x" }) none
    none (some "u") (some "v") (some "p") (some "s") none
    (.missingRequiredProperty "content_type") (.missingRequiredProperty "pve_token")
    rfl rfl

/-- C6: if the merged resource options are not a `ResourceOptions` instance,
construction of either resource fails with the options type error before any
property is marshaled or any host call is made — for every combination of
field values and `__props__`. -/
theorem claim_C6 (nm : String) (t u v p s ct ds : Option String)
    (sr : Option FileSourceRaw)
    (pbag : Option ProviderProps) (fbag : Option FileProps) :
    Provider.internal_init nm (some .notResourceOptions) t u v p s pbag
        = .error .typeErrorNotResourceOptions ∧
    File.internal_init nm (some .notResourceOptions) ct ds sr fbag
        = .error .typeErrorNotResourceOptions :=
  ⟨rfl, rfl⟩

/-- C7: `File.get` merges the given id into the options and registers the
`File` with every declared property set to `None`, so the values are
re-hydrated from the host's state store (the forwarded bag carries no caller
input) — both with no caller options and with arbitrary caller options. -/
theorem claim_C7 (nm i : String) (o : ResourceOptions) :
    File.getResource nm i none
      = .ok
        { typ := "pve:storage:File"
          name := nm
          props := some
            { content_type := none, datastore_id := none, source_raw := none }
          opts := { id := some i, urn := none, additionalSecretOutputs := [] } } ∧
    File.getResource nm i (some o)
      = .ok
        { typ := "pve:storage:File"
          name := nm
          props := some
            { content_type := none, datastore_id := none, source_raw := none }
          opts := { id := some i, urn := o.urn,
                    additionalSecretOutputs := o.additionalSecretOutputs } } := by
  refine ⟨rfl, ?_⟩
  simp [File.getResource, File.internal_init, fileBuildProps, mergeDefaults,
    ResourceOptions.mergeOpts, Except.map]
  cases o.urn <;> simp [Except.map]

/-- C8: when `opts.urn` is set to a truthy value and `opts.id` is `None`,
construction succeeds for both resources with every declared field absent:
none of the missing-required-property checks fires, and the registered bag
holds `None` in every slot. -/
theorem claim_C8 (nm u : String) (h : u ≠ "") :
    Provider.internal_init nm (some (.ro { urn := some u })) none none none
        none none none
      = .ok
        { typ := "pve"
          name := nm
          props := some
            { pve_token := none, pve_url := none, pve_user := none,
              ssh_pass := none, ssh_user := none }
          opts := { id := none, urn := some u,
                    additionalSecretOutputs := ["pveToken", "sshPass"] } } ∧
    File.internal_init nm (some (.ro { urn := some u })) none none none none
      = .ok
        { typ := "pve:storage:File"
          name := nm
          props := some
            { content_type := none, datastore_id := none, source_raw := none }
          opts := { id := none, urn := some u,
                    additionalSecretOutputs := [] } } := by
  refine ⟨?_, ?_⟩ <;>
    simp [Provider.internal_init, File.internal_init, providerBuildProps,
      fileBuildProps, mergeDefaults, ResourceOptions.mergeOpts, strTruthy, h,
      Except.map]

/-- Witness for C8 at the concrete urn `urn:pve:x`. -/
theorem claim_C8_witness :
    Provider.internal_init "p" (some (.ro { urn := some "urn:pve:x" })) none
        none none none none none
      = .ok
        { typ := "pve"
          name := "p"
          props := some
            { pve_token := none, pve_url := none, pve_user := none,
              ssh_pass := none, ssh_user := none }
          opts := { id := none, urn := some "urn:pve:x",
                    additionalSecretOutputs := ["pveToken", "sshPass"] } } ∧
    File.internal_init "p" (some (.ro { urn := some "urn:pve:x" })) none none
        none none
      = .ok
        { typ := "pve:storage:File"
          name := "p"
          props := some
            { content_type := none, datastore_id := none, source_raw := none }
          opts := { id := none, urn := some "urn:pve:x",
                    additionalSecretOutputs := [] } } :=
  claim_C8 "p" "urn:pve:x" (by decide)

/-- C9: a non-`None` `__props__` bag without `opts.id` fails with the
dedicated type error for both resources (whatever the field values and urn),
and with `opts.id` set the supplied bag is forwarded to registration
unvalidated, exactly as given. -/
theorem claim_C9 (nm i : String) (ou : Option String)
    (t u v p s : Option String) (pbag : ProviderProps)
    (ct ds : Option String) (sr : Option FileSourceRaw) (fbag : FileProps) :
    Provider.internal_init nm (some (.ro { urn := ou })) t u v p s (some pbag)
        = .error .typeErrorPropsWithId ∧
    File.internal_init nm (some (.ro { urn := ou })) ct ds sr (some fbag)
        = .error .typeErrorPropsWithId ∧
    Provider.internal_init nm (some (.ro { id := some i })) t u v p s (some pbag)
        = .ok
          { typ := "pve"
            name := nm
            props := some pbag
            opts := { id := some i, urn := none,
                      additionalSecretOutputs := ["pveToken", "sshPass"] } } ∧
    File.internal_init nm (some (.ro { id := some i })) ct ds sr (some fbag)
        = .ok
          { typ := "pve:storage:File"
            name := nm
            props := some fbag
            opts := { id := some i, urn := none,
                      additionalSecretOutputs := [] } } :=
  ⟨rfl, rfl, rfl, rfl⟩

/-- C10: every successful `Provider` construction — create path, lookup by
id, or urn-based — forwards options whose `additional_secret_outputs` are
the incoming ones extended by exactly `pveToken` and `sshPass`, so both
secret markers are always attached. -/
theorem claim_C10 (nm : String) (oa : Option OptsArg)
    (t u v p s : Option String) (pbag : Option ProviderProps)
    (call : ProviderRegisterCall)
    (h : Provider.internal_init nm oa t u v p s pbag = .ok call) :
    "pveToken" ∈ call.opts.additionalSecretOutputs ∧
    "sshPass" ∈ call.opts.additionalSecretOutputs ∧
    ∃ pre, call.opts.additionalSecretOutputs = pre ++ ["pveToken", "sshPass"] := by
  rw [Provider.internal_init] at h
  cases hm : mergeDefaults oa with
  | notResourceOptions => simp [hm] at h
  | ro o =>
    simp only [hm] at h
    cases hb : providerBuildProps o t u v p s pbag with
    | error e => simp [hb, Except.map] at h
    | ok props =>
      simp only [hb, Except.map, Except.ok.injEq] at h
      subst h
      refine ⟨?_, ?_, o.additionalSecretOutputs, ?_⟩ <;>
        simp [ResourceOptions.mergeOpts]

/-- Witness for C10 at a concrete create-path input. -/
theorem claim_C10_witness :
    "pveToken" ∈ provTestCall.opts.additionalSecretOutputs ∧
    "sshPass" ∈ provTestCall.opts.additionalSecretOutputs ∧
    ∃ pre, provTestCall.opts.additionalSecretOutputs
        = pre ++ ["pveToken", "sshPass"] :=
  claim_C10 "p" (some (.ro {})) (some "t") (some "u") (some "v") (some "w")
    (some "s") none provTestCall rfl
